import Mathlib

/-!
Verification of the game-state engine of the `text_adv_game` repository
(`src/game.js`): room graph, entities (items, creatures, player), command
interpreter and turn resolution.  Every definition below is a shallow
embedding of the corresponding JavaScript source; DOM-only side effects
(status displays, buttons) are outside the modelled core.

`Math.random()` is modelled by a rational number in `[0, 1)` supplied as an
explicit argument to command processing.
-/

/-- A value of `Math.random()`: a rational in `[0, 1)`. -/
def RandVal := {q : ℚ // 0 ≤ q ∧ q < 1}

/-- Embeds `Item` (game.js:4-22): identity plus usability flags. -/
structure Item where
  id : String
  name : String
  descr : String
  isUsable : Bool
  isEquippable : Bool
deriving DecidableEq

/-- Embeds `Creature` (game.js:25-67).  `health` starts at `maxHealth`,
`isAlive` starts `true`. -/
structure Creature where
  id : String
  name : String
  descr : String
  health : Int
  maxHealth : Int
  damage : Int
  isHostile : Bool
  isAlive : Bool
deriving DecidableEq

/-- The six room ids created by `GameEngine.createRooms` (game.js:340-396). -/
inductive RoomId where
  | crash_site
  | alien_forest
  | crystal_caves
  | research_facility
  | mountain_peak
  | underground_tunnels
deriving DecidableEq, Fintype

/-- The mutable part of a `Room` (game.js:70-80): contained items and
creatures and the visited flag.  Name, description and exits are fixed at
world construction and modelled as functions of `RoomId`. -/
structure RoomState where
  items : List Item
  creatures : List Creature
  isVisited : Bool
deriving DecidableEq

/-- Embeds `Player` (game.js:163-170). -/
structure Player where
  health : Int
  maxHealth : Int
  inventory : List Item
  currentLocation : RoomId
  isAlive : Bool
deriving DecidableEq

/-- The engine-owned game state (game.js:297-302): all rooms, the player and
the two terminal flags. -/
structure GameState where
  rooms : RoomId → RoomState
  player : Player
  isGameOver : Bool
  isWin : Bool

/-- The four compass directions used as exit labels. -/
inductive Dir where
  | north
  | south
  | east
  | west
deriving DecidableEq, Fintype

/-- The string label of a direction, as used as a key of the `exits` object. -/
def dirString : Dir → String
  | .north => "north"
  | .south => "south"
  | .east => "east"
  | .west => "west"

/-- Opposite compass direction (north/south swapped, east/west swapped). -/
def dirOpposite : Dir → Dir
  | .north => .south
  | .south => .north
  | .east => .west
  | .west => .east

/-- The exit mapping assigned in `createRooms` (game.js:390-395), looked up
by direction string exactly as `currentRoom.exits[direction]` does. -/
def exits : RoomId → String → Option RoomId
  | .crash_site, d =>
    if d = "north" then some .alien_forest
    else if d = "east" then some .crystal_caves else none
  | .alien_forest, d =>
    if d = "south" then some .crash_site
    else if d = "east" then some .mountain_peak
    else if d = "west" then some .underground_tunnels else none
  | .crystal_caves, d =>
    if d = "west" then some .crash_site
    else if d = "north" then some .research_facility else none
  | .research_facility, d =>
    if d = "south" then some .crystal_caves
    else if d = "east" then some .mountain_peak else none
  | .mountain_peak, d =>
    if d = "west" then some .alien_forest
    else if d = "south" then some .research_facility else none
  | .underground_tunnels, d =>
    if d = "east" then some .alien_forest
    else if d = "north" then some .crystal_caves else none

/-- `Object.keys(room.exits)` in insertion order (game.js:390-395). -/
def exitKeys : RoomId → List String
  | .crash_site => ["north", "east"]
  | .alien_forest => ["south", "east", "west"]
  | .crystal_caves => ["west", "north"]
  | .research_facility => ["south", "east"]
  | .mountain_peak => ["west", "south"]
  | .underground_tunnels => ["east", "north"]

/-- Room display names (game.js:342-387). -/
def roomName : RoomId → String
  | .crash_site => "Crash Site"
  | .alien_forest => "Alien Forest"
  | .crystal_caves => "Crystal Caves"
  | .research_facility => "Abandoned Research Facility"
  | .mountain_peak => "Mountain Peak"
  | .underground_tunnels => "Underground Tunnels"

/-- Room description texts (game.js:342-387). -/
def roomDescText : RoomId → String
  | .crash_site => "The smoldering wreckage of your spaceship lies scattered around you. The alien air is thin and cold. Strange purple plants grow in clusters around the metal debris."
  | .alien_forest => "Tall, bioluminescent trees tower above you, their glowing blue leaves casting eerie shadows. The ground is soft and spongy, and you hear strange rustling sounds in the distance."
  | .crystal_caves => "The walls of this cave are lined with shimmering crystals that pulse with an inner light. The air hums with energy, and you can hear dripping water echoing in the distance."
  | .research_facility => "This once-bustling research facility is now silent and dusty. Broken equipment lines the walls, and computer screens flicker with error messages. Papers and data pads are scattered on the floor."
  | .mountain_peak => "You stand at the highest point of the alien mountain range. The view is breathtaking - you can see the entire alien landscape spread out below. The wind howls fiercely at this altitude."
  | .underground_tunnels => "These dark, narrow tunnels wind deep beneath the planet\x27s surface. The air is damp and musty, and strange markings cover the walls."

/-- The nine items of `createItems` (game.js:399-465). -/
def itemMedkit : Item := ⟨"medkit", "Medkit", "A medical kit that can restore health.", true, false⟩

def itemEnergyBar : Item := ⟨"energy_bar", "Energy Bar", "A high-energy food bar that restores a small amount of health.", true, false⟩

def itemFlashlight : Item := ⟨"flashlight", "Flashlight", "A sturdy flashlight that can illuminate dark areas.", true, false⟩

def itemKnife : Item := ⟨"knife", "Combat Knife", "A sharp combat knife that increases your damage in combat.", false, true⟩

def itemKeycard : Item := ⟨"keycard", "Research Facility Keycard", "A keycard that grants access to the research facility.", false, false⟩

def itemBattery : Item := ⟨"battery", "Power Battery", "A high-capacity battery that can power electronic devices.", true, false⟩

def itemBeacon : Item := ⟨"beacon", "Rescue Beacon", "A distress beacon that can call for rescue when activated at the mountain peak.", true, false⟩

def itemCrystal : Item := ⟨"crystal", "Energy Crystal", "A glowing crystal that hums with power. It might be useful for repairing equipment.", false, false⟩

def itemDatapad : Item := ⟨"datapad", "Research Datapad", "A datapad containing research notes about the alien planet.", false, false⟩

/-- The four creatures of `createCreatures` (game.js:512-547). -/
def creatureXenomorph : Creature := ⟨"xenomorph", "Xenomorph", "A terrifying alien creature with sharp claws and dripping fangs. It moves with unnatural speed.", 50, 50, 15, true, true⟩

def creatureAlienBeast : Creature := ⟨"alien_beast", "Alien Beast", "A large, six-legged creature with tough hide and powerful jaws. It looks hungry.", 70, 70, 10, true, true⟩

def creatureSwarm : Creature := ⟨"swarm", "Alien Swarm", "A swarm of small, flying alien creatures that move as one. Individually weak, but dangerous in numbers.", 30, 30, 8, true, true⟩

def creatureFriendlyAlien : Creature := ⟨"friendly_alien", "Peaceful Alien", "A small, timid creature with large eyes. It seems curious rather than hostile.", 20, 20, 0, false, true⟩

/-- Room contents after `placeItemsAndCreatures` (game.js:550-570); the
starting room is marked visited by `initializeGame` (game.js:330-334). -/
def initialRooms : RoomId → RoomState
  | .crash_site => ⟨[itemFlashlight, itemEnergyBar], [], true⟩
  | .alien_forest => ⟨[itemMedkit], [creatureXenomorph], false⟩
  | .crystal_caves => ⟨[itemCrystal], [creatureSwarm], false⟩
  | .research_facility => ⟨[itemKeycard, itemDatapad, itemBattery], [creatureAlienBeast], false⟩
  | .mountain_peak => ⟨[itemBeacon], [], false⟩
  | .underground_tunnels => ⟨[itemKnife], [creatureFriendlyAlien], false⟩

/-- The state after `initializeGame` (game.js:315-337): fresh player in the
crash site with full health, no flags set. -/
def initialState : GameState :=
  ⟨initialRooms, ⟨100, 100, [], .crash_site, true⟩, false, false⟩

/-! ### String helpers

JavaScript string primitives (`toLowerCase`, `trim`, `split(' ')`,
`join(' ')`) embedded structurally over the character list so that they
evaluate inside the kernel. -/

/-- `String.prototype.toLowerCase` (ASCII case folding). -/
def toLowerStr (s : String) : String := String.mk (s.data.map Char.toLower)

/-- `String.prototype.trim`. -/
def trimStr (s : String) : String :=
  String.mk (((s.data.dropWhile Char.isWhitespace).reverse.dropWhile Char.isWhitespace).reverse)

/-- Helper for `split(' ')`: accumulates the current token (reversed). -/
def splitSpacesAux : List Char → List Char → List String
  | [], acc => [String.mk acc.reverse]
  | c :: rest, acc =>
    if c = ' ' then String.mk acc.reverse :: splitSpacesAux rest []
    else splitSpacesAux rest (c :: acc)

/-- `String.prototype.split(' ')`: split on every single space. -/
def splitSpaces (s : String) : List String := splitSpacesAux s.data []

/-- `Array.prototype.join(' ')`. -/
def joinSpace : List String → String
  | [] => ""
  | [x] => x
  | x :: y :: rest => x ++ " " ++ joinSpace (y :: rest)

/-- The command normalisation of `processCommand` (game.js:583-585):
`command.trim().toLowerCase().split(' ')`, first token as the action and the
rest re-joined as the target. -/
def parseCommand (command : String) : String × String :=
  let parts := splitSpaces (toLowerStr (trimStr command))
  (parts.headD "", joinSpace parts.tail)

/-! ### Entity operations -/

/-- `Creature.takeDamage` (game.js:47-55): subtract, clamp at 0, flip the
alive flag; returns whether the creature died. -/
def creatureTakeDamage (c : Creature) (amount : Int) : Bool × Creature :=
  let h := c.health - amount
  if h ≤ 0 then (true, { c with health := 0, isAlive := false })
  else (false, { c with health := h })

/-- `Player.takeDamage` (game.js:271-277). -/
def playerTakeDamage (p : Player) (amount : Int) : Player :=
  let h := p.health - amount
  if h ≤ 0 then { p with health := 0, isAlive := false }
  else { p with health := h }

/-- The player's damage roll `Math.floor(Math.random() * 15) + 5`
(game.js:253). -/
def playerAttackDamage (r : RandVal) : Int := Int.floor (r.val * 15) + 5

/-- `Creature.attack` (game.js:38-44): counter-attack for
`Math.floor(Math.random() * damage) + 1`; returns no message (JavaScript
`undefined`) when the creature is dead or not hostile. -/
def creatureAttack (c : Creature) (r : RandVal) (p : Player) : Option String × Player :=
  if c.isAlive = false || c.isHostile = false then (none, p)
  else
    let d := Int.floor (r.val * (c.damage : ℚ)) + 1
    (some (c.name ++ " attacks you for " ++ toString d ++ " damage!"), playerTakeDamage p d)

/-! ### Room list operations -/

/-- `Room.removeItem` (game.js:123-129): remove the first item with the
given id, returning it together with the remaining list. -/
def removeFirstItem : List Item → String → Option (Item × List Item)
  | [], _ => none
  | i :: rest, tid =>
    if i.id = tid then some (i, rest)
    else
      match removeFirstItem rest tid with
      | none => none
      | some (x, rest') => some (x, i :: rest')

/-- In-place mutation of the first creature satisfying the predicate
(the JavaScript `find` returns a reference that `takeDamage` mutates). -/
def replaceFirst (l : List Creature) (p : Creature → Bool) (c : Creature) : List Creature :=
  match l with
  | [] => []
  | x :: rest => if p x then c :: rest else x :: replaceFirst rest p c

/-- `Room.removeCreature` (game.js:137-143): drop the first creature with
the given id. -/
def removeFirstCreature (l : List Creature) (cid : String) : List Creature :=
  match l with
  | [] => []
  | x :: rest => if x.id = cid then rest else x :: removeFirstCreature rest cid

/-- `Room.getCreatureByName`'s predicate (game.js:156-159): case-insensitive
name match. -/
def creatureNameMatches (target : String) (c : Creature) : Bool :=
  toLowerStr c.name == toLowerStr target

/-! ### State update helpers -/

def setRoomItems (s : GameState) (rid : RoomId) (its : List Item) : GameState :=
  { s with rooms := fun r => if r = rid then { s.rooms r with items := its } else s.rooms r }

def setRoomCreatures (s : GameState) (rid : RoomId) (cs : List Creature) : GameState :=
  { s with rooms := fun r => if r = rid then { s.rooms r with creatures := cs } else s.rooms r }

def setRoomVisited (s : GameState) (rid : RoomId) : GameState :=
  { s with rooms := fun r => if r = rid then { s.rooms r with isVisited := true } else s.rooms r }

/-! ### Room description -/

/-- `Room.getDescription` (game.js:83-110): name, description, item list,
creature list and exits. -/
def getRoomDescription (s : GameState) (rid : RoomId) : String :=
  let rs := s.rooms rid
  let d0 := "<span class=\"location-name\">" ++ roomName rid ++ "</span>\n\n" ++ roomDescText rid
  let d1 :=
    if rs.items.length > 0 then
      d0 ++ "\n\nYou see: " ++
        String.intercalate ", " (rs.items.map fun i => "<span class=\"item-name\">" ++ i.name ++ "</span>")
    else d0
  let d2 :=
    if rs.creatures.length > 0 then
      d1 ++ "\n\nCreatures: " ++
        String.intercalate ", " (rs.creatures.map fun c => "<span class=\"creature-name\">" ++ c.name ++ "</span>")
    else d1
  if (exitKeys rid).length > 0 then d2 ++ "\n\nExits: " ++ String.intercalate ", " (exitKeys rid)
  else d2 ++ "\n\nThere are no obvious exits."

/-! ### Command handlers -/

/-- The state after a successful move (game.js:182-188): relocate the player
and mark the destination visited if it was not. -/
def moveState (s : GameState) (nid : RoomId) : GameState :=
  let s1 := { s with player := { s.player with currentLocation := nid } }
  if (s1.rooms nid).isVisited = false then setRoomVisited s1 nid else s1

/-- `Player.move` (game.js:173-191).  The current room always exists in the
registry, so the unknown-location guard of the source is unreachable. -/
def doMove (s : GameState) (direction : String) : String × GameState :=
  match exits s.player.currentLocation (toLowerStr direction) with
  | none => ("You can\x27t go " ++ direction ++ " from here.", s)
  | some nid => (getRoomDescription (moveState s nid) nid, moveState s nid)

/-- `Player.take` (game.js:194-216): resolve by id, fall back to
case-insensitive name, then remove from the room and push to inventory. -/
def doTake (s : GameState) (target : String) : String × GameState :=
  let room := s.rooms s.player.currentLocation
  let resolved : Option String :=
    if (room.items.find? fun i => i.id == target).isSome then some target
    else
      match room.items.find? (fun i => toLowerStr i.name == toLowerStr target) with
      | some it => some it.id
      | none => none
  match resolved with
  | none => ("There is no " ++ target ++ " here.", s)
  | some tid =>
    match removeFirstItem room.items tid with
    | some pair =>
      let s1 := setRoomItems s s.player.currentLocation pair.2
      let s2 := { s1 with player := { s1.player with inventory := s1.player.inventory ++ [pair.1] } }
      ("You take the " ++ pair.1.name ++ ".", s2)
    | none => ("You can\x27t take that.", s)

/-- The inventory lookup of `Player.use` (game.js:220-221): by id or
case-insensitive name. -/
def inventoryFind (p : Player) (target : String) : Option Item :=
  p.inventory.find? fun i => i.id == target || toLowerStr i.name == toLowerStr target

/-- The bound `use` effects of `createItems` (game.js:468-508), dispatched by
item id: medkit and energy bar heal with a clamp at `maxHealth`, the
flashlight and battery are flavor-only, and the beacon triggers the win when
used at the mountain peak with the battery held. -/
def itemUse (it : Item) (s : GameState) : String × GameState :=
  if it.id = "medkit" then
    ("<span class=\"success-text\">You use the medkit and restore 50 health.</span>",
     { s with player := { s.player with health := min (s.player.health + 50) s.player.maxHealth } })
  else if it.id = "energy_bar" then
    ("<span class=\"success-text\">You eat the energy bar and restore 20 health.</span>",
     { s with player := { s.player with health := min (s.player.health + 20) s.player.maxHealth } })
  else if it.id = "flashlight" then
    ("<span class=\"info-text\">You turn on the flashlight. The beam cuts through the darkness.</span>", s)
  else if it.id = "battery" then
    ((if s.player.inventory.any (fun j => j.id == "beacon") then
       "<span class=\"success-text\">You install the battery in the beacon. It\x27s now ready to activate!</span>"
      else "<span class=\"warning-text\">You have nothing to use the battery with.</span>"), s)
  else if it.id = "beacon" then
    (if s.player.currentLocation = RoomId.mountain_peak then
      (if s.player.inventory.any (fun j => j.id == "battery") then
        ("<span class=\"success-text\">You activate the rescue beacon! A signal shoots into the sky... Rescue is on the way! YOU WIN!</span>",
         { s with isWin := true, isGameOver := true })
       else ("<span class=\"warning-text\">The beacon needs power. You need to find a battery first.</span>", s))
     else ("<span class=\"warning-text\">You need to be at the mountain peak to activate the beacon effectively.</span>", s))
  else ("You can\x27t use the " ++ it.name ++ " right now.", s)

/-- `Player.use` (game.js:219-232). -/
def doUse (s : GameState) (target : String) : String × GameState :=
  match inventoryFind s.player target with
  | none => ("You don\x27t have a " ++ target ++ ".", s)
  | some it =>
    if it.isUsable = false then ("You can\x27t use the " ++ it.name ++ ".", s)
    else itemUse it s

/-- `Player.attack` (game.js:235-268): resolve by name, guard on alive and
hostile, roll damage, remove on death or take the counter-attack. -/
def doAttack (s : GameState) (target : String) (r1 r2 : RandVal) : String × GameState :=
  let room := s.rooms s.player.currentLocation
  match room.creatures.find? (creatureNameMatches target) with
  | none => ("There is no " ++ target ++ " here.", s)
  | some c =>
    if c.isAlive = false then ("The " ++ target ++ " is already dead.", s)
    else if c.isHostile = false then
      ("The " ++ target ++ " is not hostile and doesn\x27t want to fight.", s)
    else
      let pd := playerAttackDamage r1
      let dmg := creatureTakeDamage c pd
      let creatures1 := replaceFirst room.creatures (creatureNameMatches target) dmg.2
      let result := "You attack the " ++ c.name ++ " for " ++ toString pd ++ " damage!"
      if dmg.1 = true then
        let creatures2 := removeFirstCreature creatures1 c.id
        (result ++ " The " ++ c.name ++ " is dead!",
         setRoomCreatures s s.player.currentLocation creatures2)
      else
        let ca := creatureAttack dmg.2 r2 s.player
        let counterText := match ca.1 with | some m => m | none => "undefined"
        (result ++ "\n" ++ counterText,
         { setRoomCreatures s s.player.currentLocation creatures1 with player := ca.2 })

/-- `Player.getInventory` (game.js:288-293). -/
def getInventoryStr (p : Player) : String :=
  if p.inventory.length = 0 then "Your inventory is empty."
  else String.intercalate ", " (p.inventory.map fun i => i.name)

/-- `Player.checkStatus` (game.js:280-285). -/
def checkStatusStr (p : Player) : String :=
  if p.isAlive = false then "You are dead."
  else "Health: " ++ toString p.health ++ "/" ++ toString p.maxHealth

/-- `GameEngine.getHelpText` (game.js:665-677). -/
def helpText : String :=
  "Available commands:\n- go/move/walk [direction] - Move in a direction (north, south, east, west)\n- look/l - Look around the current area\n- take/get [item] - Pick up an item\n- use [item] - Use an item from your inventory\n- attack/fight/hit [creature] - Attack a creature\n- inventory/inv/i - Check your inventory\n- status/health/hp - Check your health status\n- help/h/? - Show this help text\n\nYour goal: Survive the alien creatures and find a way to call for rescue!"

/-- `GameEngine.checkGameConditions` (game.js:680-688): set the game-over
flag when the player is dead; the win flag is only set by the beacon. -/
def checkGameConditions (s : GameState) : GameState :=
  if s.player.isAlive = false then { s with isGameOver := true } else s

/-- The verb dispatch of `GameEngine.processCommand` (game.js:589-653). -/
def dispatch (s : GameState) (command action target : String) (rng : RandVal × RandVal) : String × GameState :=
  if action = "go" ∨ action = "move" ∨ action = "walk" then
    if target = "" then ("Go where? Specify a direction (north, south, east, west).", s)
    else doMove s target
  else if action = "look" ∨ action = "l" then
    (getRoomDescription s s.player.currentLocation, s)
  else if action = "take" ∨ action = "get" then
    if target = "" then ("Take what? Specify an item name.", s)
    else doTake s target
  else if action = "use" then
    if target = "" then ("Use what? Specify an item name.", s)
    else doUse s target
  else if action = "attack" ∨ action = "fight" ∨ action = "hit" then
    if target = "" then ("Attack what? Specify a creature name.", s)
    else doAttack s target rng.1 rng.2
  else if action = "inventory" ∨ action = "inv" ∨ action = "i" then
    ("Inventory: " ++ getInventoryStr s.player, s)
  else if action = "status" ∨ action = "health" ∨ action = "hp" then
    ("Status: " ++ checkStatusStr s.player, s)
  else if action = "help" ∨ action = "h" ∨ action = "?" then
    (helpText, s)
  else
    ("I don\x27t understand \x27" ++ command ++ "\x27. Type \x27help\x27 for available commands.", s)

/-- `GameEngine.processCommand` (game.js:578-662): game-over short-circuit,
parse, dispatch, then re-check the end conditions. -/
def processCommand (s : GameState) (command : String) (rng : RandVal × RandVal) : String × GameState :=
  if s.isGameOver = true then ("The game is over. Refresh the page to play again.", s)
  else
    let action := (parseCommand command).1
    let target := (parseCommand command).2
    let rs := dispatch s command action target rng
    (rs.1, checkGameConditions rs.2)

/-- The command vocabulary of the `switch` in `processCommand`. -/
def commandVocabulary : List String :=
  ["go", "move", "walk", "look", "l", "take", "get", "use", "attack", "fight", "hit",
   "inventory", "inv", "i", "status", "health", "hp", "help", "h", "?"]

/-- States reachable from the fresh session by processing commands. -/
inductive Reachable : GameState → Prop
  | init : Reachable initialState
  | step (s : GameState) (cmd : String) (rng : RandVal × RandVal) :
      Reachable s → Reachable (processCommand s cmd rng).2

/-! ### Invariants -/

/-- Invariant of one room's creature list: every contained creature is
alive, within its health bounds, with non-negative damage rating, and ids
are pairwise distinct. -/
def CreatInv (cs : List Creature) : Prop :=
  (∀ c ∈ cs, c.isAlive = true ∧ 0 < c.health ∧ c.health ≤ c.maxHealth ∧ 0 ≤ c.damage) ∧
  (cs.map Creature.id).Nodup

/-- Core state invariant: player health bounds, the alive flag derived from
health, and every room's creature invariant. -/
def InvCore (s : GameState) : Prop :=
  0 ≤ s.player.health ∧ s.player.health ≤ s.player.maxHealth ∧
  (s.player.isAlive = true ↔ 0 < s.player.health) ∧
  ∀ rid : RoomId, CreatInv (s.rooms rid).creatures

/-- Full invariant: the core plus the coupling of death and game over
established by `checkGameConditions`. -/
def GameInv (s : GameState) : Prop :=
  InvCore s ∧ (s.player.isAlive = false → s.isGameOver = true)

/-- The win precondition of the beacon effect (game.js:493-508) as resolved
through a processed command: a `use` command whose target resolves in the
inventory to the usable beacon, issued at the mountain peak with the battery
held. -/
def WinCondition (s : GameState) (command : String) : Prop :=
  (parseCommand command).1 = "use" ∧ (parseCommand command).2 ≠ "" ∧
  (∃ it : Item, inventoryFind s.player (parseCommand command).2 = some it ∧
    it.id = "beacon" ∧ it.isUsable = true) ∧
  s.player.currentLocation = RoomId.mountain_peak ∧
  s.player.inventory.any (fun j => j.id == "battery") = true

/-! ## Basic component lemmas -/

theorem checkGameConditions_isWin (t : GameState) : (checkGameConditions t).isWin = t.isWin := by
  unfold checkGameConditions
  split <;> rfl

theorem checkGameConditions_player (t : GameState) : (checkGameConditions t).player = t.player := by
  unfold checkGameConditions
  split <;> rfl

theorem checkGameConditions_rooms (t : GameState) : (checkGameConditions t).rooms = t.rooms := by
  unfold checkGameConditions
  split <;> rfl

theorem checkGameConditions_of_alive (t : GameState) (h : t.player.isAlive = true) :
    checkGameConditions t = t := by
  unfold checkGameConditions
  simp [h]

theorem moveState_player (s : GameState) (nid : RoomId) :
    (moveState s nid).player = { s.player with currentLocation := nid } := by
  unfold moveState setRoomVisited
  dsimp only
  split <;> rfl

theorem moveState_isGameOver (s : GameState) (nid : RoomId) :
    (moveState s nid).isGameOver = s.isGameOver := by
  unfold moveState setRoomVisited
  dsimp only
  split <;> rfl

theorem moveState_isWin (s : GameState) (nid : RoomId) :
    (moveState s nid).isWin = s.isWin := by
  unfold moveState setRoomVisited
  dsimp only
  split <;> rfl

theorem moveState_rooms_items (s : GameState) (nid r : RoomId) :
    ((moveState s nid).rooms r).items = (s.rooms r).items := by
  unfold moveState setRoomVisited
  dsimp only
  split
  · by_cases h : r = nid <;> simp [h]
  · rfl

theorem moveState_rooms_creatures (s : GameState) (nid r : RoomId) :
    ((moveState s nid).rooms r).creatures = (s.rooms r).creatures := by
  unfold moveState setRoomVisited
  dsimp only
  split
  · by_cases h : r = nid <;> simp [h]
  · rfl

/-! ## C5: game over is terminal -/

/-- C5: once the `gameOver` flag is true, every processed command returns
the fixed game-is-over message and leaves the entire game state unchanged;
in particular the flag never becomes false again. -/
theorem game_over_terminal (s : GameState) (cmd : String) (rng : RandVal × RandVal)
    (h : s.isGameOver = true) :
    processCommand s cmd rng = ("The game is over. Refresh the page to play again.", s) ∧
    (processCommand s cmd rng).2.isGameOver = true := by
  unfold processCommand
  simp [h]

/-- Witness for C5 at a concrete game-over state. -/
theorem game_over_terminal_witness :
    processCommand { initialState with isGameOver := true } "go north" (⟨0, by norm_num⟩, ⟨0, by norm_num⟩) =
      ("The game is over. Refresh the page to play again.", { initialState with isGameOver := true }) ∧
    (processCommand { initialState with isGameOver := true } "go north" (⟨0, by norm_num⟩, ⟨0, by norm_num⟩)).2.isGameOver = true :=
  game_over_terminal { initialState with isGameOver := true } "go north" (⟨0, by norm_num⟩, ⟨0, by norm_num⟩) rfl

/-! ## C2: the player's damage roll -/

/-- C2 (code bug): the player damage roll `Math.floor(Math.random() * 15) + 5`
of game.js:253 always lies in `[5, 19]`; the value 20 promised by the
source comment `// 5-20 damage` and by the spec is impossible. -/
theorem player_damage_roll_bounds (r : RandVal) :
    5 ≤ playerAttackDamage r ∧ playerAttackDamage r ≤ 19 ∧ playerAttackDamage r ≠ 20 := by
  have hq0 : (0 : ℚ) ≤ r.val := r.2.1
  have hq1 : r.val < 1 := r.2.2
  unfold playerAttackDamage
  have h0 : (0 : ℚ) ≤ r.val * 15 := by positivity
  have hlow : 0 ≤ Int.floor (r.val * 15) := Int.floor_nonneg.mpr h0
  have hmul : r.val * 15 < 15 := by nlinarith
  have hhigh : Int.floor (r.val * 15) < 15 := Int.floor_lt.mpr (by exact_mod_cast hmul)
  exact ⟨by omega, by omega, by omega⟩

/-! ## C6: exit symmetry of the reference world -/

/-- C6 counterexample: the reference world is NOT built with matching
reverse edges: the research facility's east exit leads to the mountain
peak, but the mountain peak's west exit leads to the alien forest, not back
to the research facility. -/
theorem exits_not_symmetric_cex :
    exits RoomId.research_facility "east" = some RoomId.mountain_peak ∧
    ¬ exits RoomId.mountain_peak "west" = some RoomId.research_facility := by
  decide

/-- C6 amended: every exit edge of the fixed world has a matching reverse
edge except the three mismatched ones: research facility east to mountain
peak, mountain peak south to research facility, and underground tunnels
north to crystal caves. -/
theorem exits_symmetric_except (a b : RoomId) (d : Dir)
    (h : exits a (dirString d) = some b) :
    exits b (dirString (dirOpposite d)) = some a ∨
    (a = RoomId.research_facility ∧ d = Dir.east) ∨
    (a = RoomId.mountain_peak ∧ d = Dir.south) ∨
    (a = RoomId.underground_tunnels ∧ d = Dir.north) := by
  revert h
  revert a b d
  decide

/-- Witness for C6 on the crash site's north exit. -/
theorem exits_symmetric_except_witness :
    exits RoomId.alien_forest (dirString (dirOpposite Dir.north)) = some RoomId.crash_site ∨
    (RoomId.crash_site = RoomId.research_facility ∧ Dir.north = Dir.east) ∨
    (RoomId.crash_site = RoomId.mountain_peak ∧ Dir.north = Dir.south) ∨
    (RoomId.crash_site = RoomId.underground_tunnels ∧ Dir.north = Dir.north) :=
  exits_symmetric_except RoomId.crash_site RoomId.alien_forest Dir.north (by decide)

/-! ## C9: unrecognized commands -/

/-- C9: any input whose first whitespace-delimited token is not in the
command vocabulary (including the empty input) yields the not-understood
message and leaves the whole game state unchanged. -/
theorem unknown_command_no_change (s : GameState) (cmd : String) (rng : RandVal × RandVal)
    (hOver : s.isGameOver = false) (hAlive : s.player.isAlive = true)
    (hvocab : (parseCommand cmd).1 ∉ commandVocabulary) :
    processCommand s cmd rng =
      ("I don\x27t understand \x27" ++ cmd ++ "\x27. Type \x27help\x27 for available commands.", s) := by
  simp only [commandVocabulary, List.mem_cons, List.mem_singleton, not_or] at hvocab
  obtain ⟨h1, h2, h3, h4, h5, h6, h7, h8, h9, h10, h11, h12, h13, h14, h15, h16, h17, h18, h19, h20⟩ := hvocab
  unfold processCommand dispatch
  simp [hOver, h1, h2, h3, h4, h5, h6, h7, h8, h9, h10, h11, h12, h13, h14, h15, h16, h17, h18, h19, h20,
    checkGameConditions_of_alive s hAlive]

/-- Witness for C9 on the empty input in the fresh session. -/
theorem unknown_command_no_change_witness :
    processCommand initialState "" (⟨0, by norm_num⟩, ⟨0, by norm_num⟩) =
      ("I don\x27t understand \x27\x27. Type \x27help\x27 for available commands.", initialState) :=
  unknown_command_no_change initialState "" (⟨0, by norm_num⟩, ⟨0, by norm_num⟩) rfl rfl (by decide)

/-! ## C7: a look right after a successful move repeats the move's text -/

/-- C7: after a successful move command, a look command with no intervening
command returns exactly the description string the move returned, and
changes nothing. -/
theorem move_then_look (s : GameState) (cmd cmdL : String) (rng rngL : RandVal × RandVal)
    (nid : RoomId)
    (hOver : s.isGameOver = false) (hAlive : s.player.isAlive = true)
    (hact : (parseCommand cmd).1 = "go" ∨ (parseCommand cmd).1 = "move" ∨ (parseCommand cmd).1 = "walk")
    (htgt : ¬ (parseCommand cmd).2 = "")
    (hexit : exits s.player.currentLocation (toLowerStr (parseCommand cmd).2) = some nid)
    (hactL : (parseCommand cmdL).1 = "look" ∨ (parseCommand cmdL).1 = "l") :
    processCommand (processCommand s cmd rng).2 cmdL rngL =
      ((processCommand s cmd rng).1, (processCommand s cmd rng).2) := by
  have halive2 : (moveState s nid).player.isAlive = true := by
    rw [moveState_player]
    exact hAlive
  have step1 : processCommand s cmd rng = (getRoomDescription (moveState s nid) nid, moveState s nid) := by
    unfold processCommand
    rw [if_neg (by simp [hOver])]
    dsimp only
    unfold dispatch
    rw [if_pos hact, if_neg htgt]
    unfold doMove
    rw [hexit]
    dsimp only
    rw [checkGameConditions_of_alive _ halive2]
  have hOver2 : (moveState s nid).isGameOver = false := by
    rw [moveState_isGameOver]
    exact hOver
  have hnotmove : ¬ ((parseCommand cmdL).1 = "go" ∨ (parseCommand cmdL).1 = "move" ∨ (parseCommand cmdL).1 = "walk") := by
    rcases hactL with h | h <;> rw [h] <;> decide
  have hloc : (moveState s nid).player.currentLocation = nid := by
    rw [moveState_player]
  have step2 : processCommand (moveState s nid) cmdL rngL =
      (getRoomDescription (moveState s nid) nid, moveState s nid) := by
    unfold processCommand
    rw [if_neg (by simp [hOver2])]
    dsimp only
    unfold dispatch
    rw [if_neg hnotmove, if_pos hactL]
    dsimp only
    rw [hloc, checkGameConditions_of_alive _ halive2]
  rw [step1]
  exact step2

/-- Witness for C7: `go north` from the fresh session, then `look`. -/
theorem move_then_look_witness :
    processCommand (processCommand initialState "go north" (⟨0, by norm_num⟩, ⟨0, by norm_num⟩)).2 "look" (⟨0, by norm_num⟩, ⟨0, by norm_num⟩) =
      ((processCommand initialState "go north" (⟨0, by norm_num⟩, ⟨0, by norm_num⟩)).1,
       (processCommand initialState "go north" (⟨0, by norm_num⟩, ⟨0, by norm_num⟩)).2) :=
  move_then_look initialState "go north" "look" (⟨0, by norm_num⟩, ⟨0, by norm_num⟩) (⟨0, by norm_num⟩, ⟨0, by norm_num⟩)
    RoomId.alien_forest rfl rfl (by decide) (by decide) (by decide) (by decide)

/-! ## C1: the win flag -/

theorem doMove_isWin (s : GameState) (d : String) : (doMove s d).2.isWin = s.isWin := by
  unfold doMove
  rcases hx : exits s.player.currentLocation (toLowerStr d) with _ | nid <;>
    simp [hx, moveState_isWin]

theorem doTake_isWin (s : GameState) (t : String) : (doTake s t).2.isWin = s.isWin := by
  unfold doTake setRoomItems
  dsimp only
  split
  · rfl
  · split <;> rfl

theorem doAttack_isWin (s : GameState) (t : String) (r1 r2 : RandVal) :
    (doAttack s t r1 r2).2.isWin = s.isWin := by
  unfold doAttack setRoomCreatures
  dsimp only
  split
  · rfl
  · split
    · rfl
    · split
      · rfl
      · split <;> rfl

theorem doUse_isWin_iff (s : GameState) (t : String) (hwin : s.isWin = false) :
    ((doUse s t).2.isWin = true ↔
      (∃ it : Item, inventoryFind s.player t = some it ∧ it.id = "beacon" ∧ it.isUsable = true) ∧
      s.player.currentLocation = RoomId.mountain_peak ∧
      s.player.inventory.any (fun j => j.id == "battery") = true) := by
  unfold doUse
  rcases hf : inventoryFind s.player t with _ | it
  · simp [hwin]
  · cases hu : it.isUsable
    · simp [hf, hu, hwin]
    · unfold itemUse
      by_cases h1 : it.id = "medkit"
      · simp [hf, hu, h1, hwin]
      · by_cases h2 : it.id = "energy_bar"
        · simp [hf, hu, h1, h2, hwin]
        · by_cases h3 : it.id = "flashlight"
          · simp [hf, hu, h1, h2, h3, hwin]
          · by_cases h4 : it.id = "battery"
            · simp [hf, hu, h1, h2, h3, h4, hwin]
            · by_cases h5 : it.id = "beacon"
              · by_cases hloc : s.player.currentLocation = RoomId.mountain_peak
                · by_cases hbat : s.player.inventory.any (fun j => j.id == "battery") = true
                  · simp [hf, hu, h1, h2, h3, h4, h5, hloc, hbat]
                  · simp [hf, hu, h1, h2, h3, h4, h5, hloc, hbat, hwin]
                · simp [hf, hu, h1, h2, h3, h4, h5, hloc, hwin]
              · simp [hf, hu, h1, h2, h3, h4, h5, hwin]

theorem checkGameConditions_isGameOver_true (t : GameState) (h : t.isGameOver = true) :
    (checkGameConditions t).isGameOver = true := by
  unfold checkGameConditions
  split <;> simp [h]

theorem dispatch_win (s : GameState) (cmd A T : String) (rng : RandVal × RandVal)
    (hWin : s.isWin = false) :
    ((dispatch s cmd A T rng).2.isWin = true ↔
      (A = "use" ∧ T ≠ "" ∧
        (∃ it : Item, inventoryFind s.player T = some it ∧ it.id = "beacon" ∧ it.isUsable = true) ∧
        s.player.currentLocation = RoomId.mountain_peak ∧
        s.player.inventory.any (fun j => j.id == "battery") = true)) ∧
    ((A = "use" ∧ T ≠ "" ∧
        (∃ it : Item, inventoryFind s.player T = some it ∧ it.id = "beacon" ∧ it.isUsable = true) ∧
        s.player.currentLocation = RoomId.mountain_peak ∧
        s.player.inventory.any (fun j => j.id == "battery") = true) →
      dispatch s cmd A T rng =
        ("<span class=\"success-text\">You activate the rescue beacon! A signal shoots into the sky... Rescue is on the way! YOU WIN!</span>",
         { s with isWin := true, isGameOver := true })) := by
  unfold dispatch
  by_cases c1 : A = "go" ∨ A = "move" ∨ A = "walk"
  · rw [if_pos c1]
    have hnuse : ¬ A = "use" := by rcases c1 with h | h | h <;> rw [h] <;> decide
    have hkeep : (if T = "" then ("Go where? Specify a direction (north, south, east, west).", s)
        else doMove s T).2.isWin = s.isWin := by
      split
      · rfl
      · exact doMove_isWin s T
    refine ⟨?_, fun hw => absurd hw.1 hnuse⟩
    rw [hkeep, hWin]
    exact ⟨fun h => absurd h (by decide), fun hw => absurd hw.1 hnuse⟩
  · rw [if_neg c1]
    by_cases c2 : A = "look" ∨ A = "l"
    · rw [if_pos c2]
      have hnuse : ¬ A = "use" := by rcases c2 with h | h <;> rw [h] <;> decide
      refine ⟨?_, fun hw => absurd hw.1 hnuse⟩
      rw [hWin]
      exact ⟨fun h => absurd h (by decide), fun hw => absurd hw.1 hnuse⟩
    · rw [if_neg c2]
      by_cases c3 : A = "take" ∨ A = "get"
      · rw [if_pos c3]
        have hnuse : ¬ A = "use" := by rcases c3 with h | h <;> rw [h] <;> decide
        have hkeep : (if T = "" then ("Take what? Specify an item name.", s)
            else doTake s T).2.isWin = s.isWin := by
          split
          · rfl
          · exact doTake_isWin s T
        refine ⟨?_, fun hw => absurd hw.1 hnuse⟩
        rw [hkeep, hWin]
        exact ⟨fun h => absurd h (by decide), fun hw => absurd hw.1 hnuse⟩
      · rw [if_neg c3]
        by_cases c4 : A = "use"
        · rw [if_pos c4]
          by_cases hTe : T = ""
          · rw [if_pos hTe]
            refine ⟨?_, fun hw => absurd hTe hw.2.1⟩
            rw [hWin]
            exact ⟨fun h => absurd h (by decide), fun hw => absurd hTe hw.2.1⟩
          · rw [if_neg hTe]
            constructor
            · constructor
              · intro h
                exact ⟨c4, hTe, (doUse_isWin_iff s T hWin).mp h⟩
              · rintro ⟨_, _, hrest⟩
                exact (doUse_isWin_iff s T hWin).mpr hrest
            · rintro ⟨_, _, ⟨it, hfind, hid, husable⟩, hloc, hbat⟩
              unfold doUse
              rw [hfind]
              dsimp only
              rw [husable]
              unfold itemUse
              simp [hid, hloc, hbat]
        · rw [if_neg c4]
          by_cases c5 : A = "attack" ∨ A = "fight" ∨ A = "hit"
          · rw [if_pos c5]
            have hkeep : (if T = "" then ("Attack what? Specify a creature name.", s)
                else doAttack s T rng.1 rng.2).2.isWin = s.isWin := by
              split
              · rfl
              · exact doAttack_isWin s T rng.1 rng.2
            refine ⟨?_, fun hw => absurd hw.1 c4⟩
            rw [hkeep, hWin]
            exact ⟨fun h => absurd h (by decide), fun hw => absurd hw.1 c4⟩
          · rw [if_neg c5]
            by_cases c6 : A = "inventory" ∨ A = "inv" ∨ A = "i"
            · rw [if_pos c6]
              refine ⟨?_, fun hw => absurd hw.1 c4⟩
              rw [hWin]
              exact ⟨fun h => absurd h (by decide), fun hw => absurd hw.1 c4⟩
            · rw [if_neg c6]
              by_cases c7 : A = "status" ∨ A = "health" ∨ A = "hp"
              · rw [if_pos c7]
                refine ⟨?_, fun hw => absurd hw.1 c4⟩
                rw [hWin]
                exact ⟨fun h => absurd h (by decide), fun hw => absurd hw.1 c4⟩
              · rw [if_neg c7]
                by_cases c8 : A = "help" ∨ A = "h" ∨ A = "?"
                · rw [if_pos c8]
                  refine ⟨?_, fun hw => absurd hw.1 c4⟩
                  rw [hWin]
                  exact ⟨fun h => absurd h (by decide), fun hw => absurd hw.1 c4⟩
                · rw [if_neg c8]
                  refine ⟨?_, fun hw => absurd hw.1 c4⟩
                  rw [hWin]
                  exact ⟨fun h => absurd h (by decide), fun hw => absurd hw.1 c4⟩

/-- C1: from a live session (neither flag set), processing a command sets
the win flag exactly when it is a `use` command resolving the usable beacon
in the inventory while the player stands at the mountain peak holding the
battery; in that case the victory text is returned and the game-over flag
is set as well.  In every other circumstance the win flag stays false. -/
theorem beacon_win_iff (s : GameState) (cmd : String) (rng : RandVal × RandVal)
    (hOver : s.isGameOver = false) (hWin : s.isWin = false) :
    ((processCommand s cmd rng).2.isWin = true ↔ WinCondition s cmd) ∧
    (WinCondition s cmd →
      (processCommand s cmd rng).1 =
        "<span class=\"success-text\">You activate the rescue beacon! A signal shoots into the sky... Rescue is on the way! YOU WIN!</span>" ∧
      (processCommand s cmd rng).2.isGameOver = true) := by
  have hpc : processCommand s cmd rng =
      ((dispatch s cmd (parseCommand cmd).1 (parseCommand cmd).2 rng).1,
       checkGameConditions (dispatch s cmd (parseCommand cmd).1 (parseCommand cmd).2 rng).2) := by
    unfold processCommand
    rw [if_neg (by simp [hOver])]
  have hd := dispatch_win s cmd (parseCommand cmd).1 (parseCommand cmd).2 rng hWin
  constructor
  · rw [hpc]
    dsimp only
    rw [checkGameConditions_isWin]
    exact hd.1
  · intro hw
    have hres := hd.2 hw
    rw [hpc]
    dsimp only
    rw [hres]
    exact ⟨rfl, checkGameConditions_isGameOver_true _ rfl⟩

/-- Witness for C1: using the beacon at the mountain peak with battery and
beacon in the inventory sets the win flag. -/
theorem beacon_win_iff_witness :
    ((processCommand ⟨initialRooms, ⟨100, 100, [itemBattery, itemBeacon], .mountain_peak, true⟩, false, false⟩
        "use beacon" (⟨0, by norm_num⟩, ⟨0, by norm_num⟩)).2.isWin = true) :=
  (beacon_win_iff ⟨initialRooms, ⟨100, 100, [itemBattery, itemBeacon], .mountain_peak, true⟩, false, false⟩
      "use beacon" (⟨0, by norm_num⟩, ⟨0, by norm_num⟩) rfl rfl).1.mpr
    ⟨by decide, by decide, ⟨itemBeacon, by decide, rfl, rfl⟩, rfl, by decide⟩

/-! ## C8: taking an item, twice -/

theorem processCommand_eq (s : GameState) (cmd : String) (rng : RandVal × RandVal)
    (hOver : s.isGameOver = false) :
    processCommand s cmd rng =
      ((dispatch s cmd (parseCommand cmd).1 (parseCommand cmd).2 rng).1,
       checkGameConditions (dispatch s cmd (parseCommand cmd).1 (parseCommand cmd).2 rng).2) := by
  unfold processCommand
  rw [if_neg (by simp [hOver])]

theorem dispatch_take (s : GameState) (cmd T : String) (rng : RandVal × RandVal)
    (hT : ¬ T = "") :
    dispatch s cmd "take" T rng = doTake s T := by
  unfold dispatch
  rw [if_neg (by decide), if_neg (by decide), if_pos (by decide : ("take" : String) = "take" ∨ ("take" : String) = "get"), if_neg hT]

theorem take_core (tid : String) (it : Item) :
    ∀ l : List Item,
      l.filter (fun i => i.id == tid || toLowerStr i.name == toLowerStr tid) = [it] →
      it.id = tid →
      l.find? (fun i => i.id == tid) = some it ∧
      ∃ rest : List Item, removeFirstItem l tid = some (it, rest) ∧
        rest.filter (fun i => i.id == tid || toLowerStr i.name == toLowerStr tid) = [] := by
  intro l
  induction l with
  | nil => intro hfilter _; simp at hfilter
  | cons x xs ih =>
    intro hfilter hid
    by_cases hp : (x.id == tid || toLowerStr x.name == toLowerStr tid) = true
    · rw [List.filter_cons, if_pos hp] at hfilter
      obtain ⟨hx, hxs⟩ := List.cons_eq_cons.mp hfilter
      subst hx
      have hq : (x.id == tid) = true := beq_iff_eq.mpr hid
      refine ⟨?_, xs, ?_, hxs⟩
      · simp [List.find?_cons, hq]
      · unfold removeFirstItem
        rw [if_pos hid]
    · rw [List.filter_cons, if_neg hp] at hfilter
      obtain ⟨hfind, rest, hrem, hrestf⟩ := ih hfilter hid
      have hq : ¬ (x.id == tid) = true := by
        intro hq
        exact hp (by rw [hq, Bool.true_or])
      have hxid : ¬ x.id = tid := fun h => hq (beq_iff_eq.mpr h)
      refine ⟨?_, x :: rest, ?_, ?_⟩
      · have hq' : (x.id == tid) = false := by
          revert hq
          cases (x.id == tid) <;> simp
        simp only [List.find?_cons, hq']
        exact hfind
      · unfold removeFirstItem
        rw [if_neg hxid, hrem]
      · rw [List.filter_cons, if_neg hp, hrestf]

theorem find?_eq_none_of_filter_nil (l : List Item) (p q : Item → Bool)
    (himp : ∀ x, q x = true → p x = true) (hf : l.filter p = []) :
    l.find? q = none := by
  rw [List.find?_eq_none]
  intro x hx hqx
  have hpx := himp x hqx
  have := List.filter_eq_nil_iff.mp hf x hx
  exact this hpx

/-- C8: when exactly one item of the current room matches the target id
(by id or case-insensitive name) and the target is its id, a take command
removes that item from the room, appends it once to the inventory and
confirms; immediately repeating the same take command reports not-found and
changes nothing. -/
theorem take_twice (s : GameState) (cmd tid : String) (it : Item)
    (rng rng2 : RandVal × RandVal)
    (hOver : s.isGameOver = false) (hAlive : s.player.isAlive = true)
    (hparse : parseCommand cmd = ("take", tid)) (htid : ¬ tid = "")
    (hfilter : (s.rooms s.player.currentLocation).items.filter
        (fun i => i.id == tid || toLowerStr i.name == toLowerStr tid) = [it])
    (hid : it.id = tid) :
    ∃ rest : List Item,
      removeFirstItem (s.rooms s.player.currentLocation).items tid = some (it, rest) ∧
      processCommand s cmd rng =
        ("You take the " ++ it.name ++ ".",
         { setRoomItems s s.player.currentLocation rest with
             player := { s.player with inventory := s.player.inventory ++ [it] } }) ∧
      processCommand
          { setRoomItems s s.player.currentLocation rest with
              player := { s.player with inventory := s.player.inventory ++ [it] } } cmd rng2 =
        ("There is no " ++ tid ++ " here.",
         { setRoomItems s s.player.currentLocation rest with
             player := { s.player with inventory := s.player.inventory ++ [it] } }) := by
  obtain ⟨hfind, rest, hrem, hrestf⟩ :=
    take_core tid it (s.rooms s.player.currentLocation).items hfilter hid
  have hA : (parseCommand cmd).1 = "take" := by rw [hparse]
  have hT : (parseCommand cmd).2 = tid := by rw [hparse]
  set S2 : GameState :=
    { setRoomItems s s.player.currentLocation rest with
        player := { s.player with inventory := s.player.inventory ++ [it] } } with hS2
  have hOver2 : S2.isGameOver = false := hOver
  have hAlive2 : S2.player.isAlive = true := hAlive
  have hdt : doTake s tid = ("You take the " ++ it.name ++ ".", S2) := by
    rw [hS2]
    unfold doTake
    dsimp only
    rw [hfind]
    rw [if_pos (show (Option.isSome (some it)) = true from rfl)]
    dsimp only
    rw [hrem]
    rfl
  have hitems : (S2.rooms S2.player.currentLocation).items = rest := by
    rw [hS2]
    simp [setRoomItems]
  have hfid : (S2.rooms S2.player.currentLocation).items.find? (fun i => i.id == tid) = none := by
    rw [hitems]
    exact find?_eq_none_of_filter_nil rest _ _
      (fun x hx => by rw [hx, Bool.true_or]) hrestf
  have hfname : (S2.rooms S2.player.currentLocation).items.find?
      (fun i => toLowerStr i.name == toLowerStr tid) = none := by
    rw [hitems]
    exact find?_eq_none_of_filter_nil rest _ _
      (fun x hx => by rw [hx, Bool.or_true]) hrestf
  refine ⟨rest, hrem, ?_, ?_⟩
  · rw [processCommand_eq s cmd rng hOver, hA, hT, dispatch_take s cmd tid rng htid, hdt]
    dsimp only
    rw [checkGameConditions_of_alive S2 hAlive2]
  · rw [processCommand_eq S2 cmd rng2 hOver2, hA, hT, dispatch_take S2 cmd tid rng2 htid]
    have hdt2 : doTake S2 tid = ("There is no " ++ tid ++ " here.", S2) := by
      unfold doTake
      dsimp only
      rw [hfid]
      rw [if_neg (by decide : ¬ (Option.isSome (none : Option Item)) = true)]
      rw [hfname]
    rw [hdt2]
    dsimp only
    rw [checkGameConditions_of_alive S2 hAlive2]

/-- Witness for C8: taking the flashlight at the crash site, twice. -/
theorem take_twice_witness :
    ∃ rest : List Item,
      removeFirstItem (initialState.rooms initialState.player.currentLocation).items "flashlight" = some (itemFlashlight, rest) ∧
      processCommand initialState "take flashlight" (⟨0, by norm_num⟩, ⟨0, by norm_num⟩) =
        ("You take the " ++ itemFlashlight.name ++ ".",
         { setRoomItems initialState initialState.player.currentLocation rest with
             player := { initialState.player with inventory := initialState.player.inventory ++ [itemFlashlight] } }) ∧
      processCommand
          { setRoomItems initialState initialState.player.currentLocation rest with
              player := { initialState.player with inventory := initialState.player.inventory ++ [itemFlashlight] } }
          "take flashlight" (⟨0, by norm_num⟩, ⟨0, by norm_num⟩) =
        ("There is no flashlight here.",
         { setRoomItems initialState initialState.player.currentLocation rest with
             player := { initialState.player with inventory := initialState.player.inventory ++ [itemFlashlight] } }) :=
  take_twice initialState "take flashlight" "flashlight" itemFlashlight
    (⟨0, by norm_num⟩, ⟨0, by norm_num⟩) (⟨0, by norm_num⟩, ⟨0, by norm_num⟩)
    rfl rfl (by decide) (by decide) (by decide) rfl

/-! ## Invariant preservation -/

theorem playerAttackDamage_nonneg (r : RandVal) : 0 ≤ playerAttackDamage r := by
  unfold playerAttackDamage
  have hq0 : (0 : ℚ) ≤ r.val := r.2.1
  have h0 : (0 : ℚ) ≤ r.val * 15 := by positivity
  have := Int.floor_nonneg.mpr h0
  omega

theorem counterDamage_nonneg (r : RandVal) (dmg : Int) (hdmg : 0 ≤ dmg) :
    0 ≤ Int.floor (r.val * (dmg : ℚ)) + 1 := by
  have hq0 : (0 : ℚ) ≤ r.val := r.2.1
  have h0 : (0 : ℚ) ≤ r.val * (dmg : ℚ) := by
    have : (0 : ℚ) ≤ (dmg : ℚ) := by exact_mod_cast hdmg
    positivity
  have := Int.floor_nonneg.mpr h0
  omega

theorem playerTakeDamage_spec (p : Player) (amount : Int)
    (h0 : 0 ≤ p.health) (h1 : p.health ≤ p.maxHealth)
    (hiff : p.isAlive = true ↔ 0 < p.health) (hamt : 0 ≤ amount) :
    0 ≤ (playerTakeDamage p amount).health ∧
    (playerTakeDamage p amount).health ≤ (playerTakeDamage p amount).maxHealth ∧
    ((playerTakeDamage p amount).isAlive = true ↔ 0 < (playerTakeDamage p amount).health) := by
  unfold playerTakeDamage
  dsimp only
  split
  · exact ⟨le_refl 0, by dsimp only; omega, by simp⟩
  · rename_i hgt
    refine ⟨by dsimp only; omega, by dsimp only; omega, ?_⟩
    dsimp only
    have hha : 0 < p.health := by omega
    simp [hiff.mpr hha]
    omega

theorem ctd_id (c : Creature) (a : Int) : (creatureTakeDamage c a).2.id = c.id := by
  unfold creatureTakeDamage
  dsimp only
  split <;> rfl

theorem ctd_damage (c : Creature) (a : Int) : (creatureTakeDamage c a).2.damage = c.damage := by
  unfold creatureTakeDamage
  dsimp only
  split <;> rfl

theorem ctd_maxHealth (c : Creature) (a : Int) : (creatureTakeDamage c a).2.maxHealth = c.maxHealth := by
  unfold creatureTakeDamage
  dsimp only
  split <;> rfl

theorem ctd_isHostile (c : Creature) (a : Int) : (creatureTakeDamage c a).2.isHostile = c.isHostile := by
  unfold creatureTakeDamage
  dsimp only
  split <;> rfl

theorem ctd_health_bounds (c : Creature) (a : Int) (hamt : 0 ≤ a) (hh : 0 < c.health)
    (hmax : c.health ≤ c.maxHealth) :
    0 ≤ (creatureTakeDamage c a).2.health ∧ (creatureTakeDamage c a).2.health ≤ c.maxHealth := by
  unfold creatureTakeDamage
  dsimp only
  by_cases h : c.health - a ≤ 0
  · rw [if_pos h]
    dsimp only
    omega
  · rw [if_neg h]
    dsimp only
    omega

theorem ctd_surv (c : Creature) (a : Int) (hdied : ¬ (creatureTakeDamage c a).1 = true) :
    0 < (creatureTakeDamage c a).2.health ∧ (creatureTakeDamage c a).2.isAlive = c.isAlive := by
  unfold creatureTakeDamage at hdied ⊢
  dsimp only at hdied ⊢
  by_cases h : c.health - a ≤ 0
  · rw [if_pos h] at hdied
    simp at hdied
  · rw [if_neg h] at hdied ⊢
    dsimp only
    exact ⟨by omega, rfl⟩

theorem ctd_died (c : Creature) (a : Int) (hdied : (creatureTakeDamage c a).1 = true) :
    (creatureTakeDamage c a).2.health = 0 ∧ (creatureTakeDamage c a).2.isAlive = false := by
  unfold creatureTakeDamage at hdied ⊢
  dsimp only at hdied ⊢
  by_cases h : c.health - a ≤ 0
  · rw [if_pos h]
    exact ⟨rfl, rfl⟩
  · rw [if_neg h] at hdied
    simp at hdied

theorem replaceFirst_map_id (l : List Creature) (p : Creature → Bool) (c c' : Creature)
    (hfind : l.find? p = some c) (hid : c'.id = c.id) :
    (replaceFirst l p c').map Creature.id = l.map Creature.id := by
  induction l with
  | nil => simp at hfind
  | cons x xs ih =>
    by_cases hp : p x = true
    · simp only [List.find?_cons, hp] at hfind
      have hx : x = c := by
        injection hfind
      unfold replaceFirst
      rw [if_pos hp]
      simp [hid, hx]
    · have hp' : p x = false := by
        revert hp
        cases p x <;> simp
      simp only [List.find?_cons, hp'] at hfind
      unfold replaceFirst
      rw [if_neg (by simp [hp'])]
      simp [ih hfind]

theorem replaceFirst_mem (l : List Creature) (p : Creature → Bool) (c' : Creature) :
    ∀ y ∈ replaceFirst l p c', y ∈ l ∨ y = c' := by
  induction l with
  | nil => intro y hy; simp [replaceFirst] at hy
  | cons x xs ih =>
    intro y hy
    unfold replaceFirst at hy
    by_cases hp : p x = true
    · rw [if_pos hp] at hy
      rcases List.mem_cons.mp hy with h | h
      · exact Or.inr h
      · exact Or.inl (List.mem_cons_of_mem x h)
    · rw [if_neg hp] at hy
      rcases List.mem_cons.mp hy with h | h
      · exact Or.inl (by rw [h]; exact List.mem_cons_self x xs)
      · rcases ih y h with h' | h'
        · exact Or.inl (List.mem_cons_of_mem x h')
        · exact Or.inr h'

theorem removeFirst_replaceFirst_eraseP (l : List Creature) (p : Creature → Bool) (c c' : Creature)
    (hfind : l.find? p = some c) (hid : c'.id = c.id)
    (hnd : (l.map Creature.id).Nodup) :
    removeFirstCreature (replaceFirst l p c') c.id = l.eraseP p := by
  induction l with
  | nil => simp at hfind
  | cons x xs ih =>
    by_cases hp : p x = true
    · simp only [List.find?_cons, hp] at hfind
      have hx : x = c := by injection hfind
      unfold replaceFirst removeFirstCreature
      rw [if_pos hp]
      dsimp only
      rw [if_pos hid]
      subst hx
      simp [List.eraseP_cons, hp]
    · have hp' : p x = false := by
        revert hp
        cases p x <;> simp
      simp only [List.find?_cons, hp'] at hfind
      have hmem : c ∈ xs := List.mem_of_find?_eq_some hfind
      have hnd' : (xs.map Creature.id).Nodup := by
        simp only [List.map_cons, List.nodup_cons] at hnd
        exact hnd.2
      have hxid : ¬ x.id = c.id := by
        intro hxc
        simp only [List.map_cons, List.nodup_cons] at hnd
        exact hnd.1 (hxc ▸ List.mem_map_of_mem Creature.id hmem)
      unfold replaceFirst removeFirstCreature
      rw [if_neg (by simp [hp'])]
      dsimp only
      rw [if_neg hxid]
      rw [ih hfind hnd']
      simp [List.eraseP_cons, hp']

theorem creatInv_eraseP (cs : List Creature) (p : Creature → Bool) (h : CreatInv cs) :
    CreatInv (cs.eraseP p) := by
  constructor
  · intro c hc
    exact h.1 c ((List.eraseP_sublist cs).subset hc)
  · exact h.2.sublist ((List.eraseP_sublist cs).map Creature.id)

theorem creatInv_replaceFirst (cs : List Creature) (p : Creature → Bool) (c c' : Creature)
    (hfind : cs.find? p = some c) (hid : c'.id = c.id) (h : CreatInv cs)
    (hc' : c'.isAlive = true ∧ 0 < c'.health ∧ c'.health ≤ c'.maxHealth ∧ 0 ≤ c'.damage) :
    CreatInv (replaceFirst cs p c') := by
  constructor
  · intro y hy
    rcases replaceFirst_mem cs p c' y hy with h1 | h1
    · exact h.1 y h1
    · rw [h1]
      exact hc'
  · rw [replaceFirst_map_id cs p c c' hfind hid]
    exact h.2

theorem setRoomItems_creatures (s : GameState) (rid : RoomId) (its : List Item) (r : RoomId) :
    ((setRoomItems s rid its).rooms r).creatures = (s.rooms r).creatures := by
  unfold setRoomItems
  dsimp only
  by_cases h : r = rid <;> simp [h]

theorem setRoomCreatures_creatures (s : GameState) (rid : RoomId) (cs : List Creature) (r : RoomId) :
    ((setRoomCreatures s rid cs).rooms r).creatures =
      if r = rid then cs else (s.rooms r).creatures := by
  unfold setRoomCreatures
  dsimp only
  by_cases h : r = rid <;> simp [h]

theorem invCore_doMove (s : GameState) (d : String) (h : InvCore s) : InvCore (doMove s d).2 := by
  unfold doMove
  rcases hx : exits s.player.currentLocation (toLowerStr d) with _ | nid
  · exact h
  · dsimp only
    obtain ⟨h0, h1, hiff, hrooms⟩ := h
    refine ⟨?_, ?_, ?_, ?_⟩
    · rw [moveState_player]
      exact h0
    · rw [moveState_player]
      exact h1
    · rw [moveState_player]
      exact hiff
    · intro rid
      rw [moveState_rooms_creatures]
      exact hrooms rid

theorem invCore_doTake (s : GameState) (t : String) (h : InvCore s) : InvCore (doTake s t).2 := by
  unfold doTake
  dsimp only
  split
  · exact h
  · split
    · obtain ⟨h0, h1, hiff, hrooms⟩ := h
      refine ⟨h0, h1, hiff, ?_⟩
      intro rid
      rw [setRoomItems_creatures]
      exact hrooms rid
    · exact h

theorem invCore_doUse (s : GameState) (t : String) (h : InvCore s)
    (halive : s.player.isAlive = true) : InvCore (doUse s t).2 := by
  obtain ⟨h0, h1, hiff, hrooms⟩ := h
  have hpos : 0 < s.player.health := hiff.mp halive
  unfold doUse
  rcases hf : inventoryFind s.player t with _ | it
  · exact ⟨h0, h1, hiff, hrooms⟩
  · dsimp only
    split
    · exact ⟨h0, h1, hiff, hrooms⟩
    · unfold itemUse
      split_ifs <;>
        first
          | exact ⟨h0, h1, hiff, hrooms⟩
          | exact ⟨by dsimp only; omega, by dsimp only; omega,
              by dsimp only; rw [halive]; exact ⟨fun _ => by omega, fun _ => rfl⟩,
              hrooms⟩

theorem invCore_doAttack (s : GameState) (t : String) (r1 r2 : RandVal) (h : InvCore s)
    (_halive : s.player.isAlive = true) : InvCore (doAttack s t r1 r2).2 := by
  obtain ⟨h0, h1, hiff, hrooms⟩ := h
  unfold doAttack
  dsimp only
  rcases hfind : (s.rooms s.player.currentLocation).creatures.find? (creatureNameMatches t) with _ | c <;>
    simp only [hfind]
  · exact ⟨h0, h1, hiff, hrooms⟩
  · have hcmem : c ∈ (s.rooms s.player.currentLocation).creatures :=
      List.mem_of_find?_eq_some hfind
    obtain ⟨hcAlive, hcHealth, hcMax, hcDmg⟩ := (hrooms s.player.currentLocation).1 c hcmem
    have hnd := (hrooms s.player.currentLocation).2
    rw [if_neg (by simp [hcAlive])]
    by_cases hHost : c.isHostile = false
    · rw [if_pos hHost]
      exact ⟨h0, h1, hiff, hrooms⟩
    · rw [if_neg hHost]
      have hpd : 0 ≤ playerAttackDamage r1 := playerAttackDamage_nonneg r1
      have hcb := ctd_health_bounds c (playerAttackDamage r1) hpd hcHealth hcMax
      by_cases hdied : (creatureTakeDamage c (playerAttackDamage r1)).1 = true
      · rw [if_pos hdied]
        refine ⟨h0, h1, hiff, ?_⟩
        intro rid
        rw [setRoomCreatures_creatures]
        by_cases hr : rid = s.player.currentLocation
        · rw [if_pos hr]
          rw [removeFirst_replaceFirst_eraseP _ _ c _ hfind
            (ctd_id c (playerAttackDamage r1)) hnd]
          exact creatInv_eraseP _ _ (hrooms s.player.currentLocation)
        · rw [if_neg hr]
          exact hrooms rid
      · rw [if_neg hdied]
        obtain ⟨hsh, hsa⟩ := ctd_surv c (playerAttackDamage r1) hdied
        have hc'alive : (creatureTakeDamage c (playerAttackDamage r1)).2.isAlive = true := by
          rw [hsa, hcAlive]
        have hc'host : (creatureTakeDamage c (playerAttackDamage r1)).2.isHostile = c.isHostile :=
          ctd_isHostile c (playerAttackDamage r1)
        have hcrinv : CreatInv (replaceFirst (s.rooms s.player.currentLocation).creatures
            (creatureNameMatches t) (creatureTakeDamage c (playerAttackDamage r1)).2) := by
          refine creatInv_replaceFirst _ _ c _ hfind (ctd_id c (playerAttackDamage r1))
            (hrooms s.player.currentLocation) ⟨hc'alive, hsh, ?_, ?_⟩
          · rw [ctd_maxHealth]
            exact hcb.2
          · rw [ctd_damage]
            exact hcDmg
        have hca : (creatureAttack (creatureTakeDamage c (playerAttackDamage r1)).2 r2 s.player).2 =
            playerTakeDamage s.player
              (Int.floor (r2.val * ((creatureTakeDamage c (playerAttackDamage r1)).2.damage : ℚ)) + 1) := by
          unfold creatureAttack
          rw [if_neg (by rw [hc'alive, hc'host]; revert hHost; cases c.isHostile <;> simp)]
        have hd : 0 ≤ Int.floor (r2.val * ((creatureTakeDamage c (playerAttackDamage r1)).2.damage : ℚ)) + 1 := by
          apply counterDamage_nonneg
          rw [ctd_damage]
          exact hcDmg
        have hall := playerTakeDamage_spec s.player _ h0 h1 hiff hd
        refine ⟨?_, ?_, ?_, ?_⟩
        · dsimp only
          rw [hca]
          exact hall.1
        · dsimp only
          rw [hca]
          exact hall.2.1
        · dsimp only
          rw [hca]
          exact hall.2.2
        · intro rid
          dsimp only
          rw [setRoomCreatures_creatures]
          by_cases hr : rid = s.player.currentLocation
          · rw [if_pos hr]
            exact hcrinv
          · rw [if_neg hr]
            exact hrooms rid

theorem invCore_dispatch (s : GameState) (cmd A T : String) (rng : RandVal × RandVal)
    (h : InvCore s) (halive : s.player.isAlive = true) :
    InvCore (dispatch s cmd A T rng).2 := by
  unfold dispatch
  split_ifs <;>
    first
      | exact h
      | exact invCore_doMove s T h
      | exact invCore_doTake s T h
      | exact invCore_doUse s T h halive
      | exact invCore_doAttack s T rng.1 rng.2 h halive

theorem gameInv_checkGame (t : GameState) (h : InvCore t) : GameInv (checkGameConditions t) := by
  unfold checkGameConditions
  by_cases ha : t.player.isAlive = false
  · rw [if_pos ha]
    exact ⟨h, fun _ => rfl⟩
  · rw [if_neg ha]
    exact ⟨h, fun hf => absurd hf ha⟩

theorem gameInv_init : GameInv initialState := by
  unfold GameInv InvCore CreatInv
  decide

theorem gameInv_step (s : GameState) (cmd : String) (rng : RandVal × RandVal)
    (h : GameInv s) : GameInv (processCommand s cmd rng).2 := by
  by_cases hOver : s.isGameOver = true
  · unfold processCommand
    rw [if_pos hOver]
    exact h
  · have hOver' : s.isGameOver = false := by
      revert hOver
      cases s.isGameOver <;> simp
    have halive : s.player.isAlive = true := by
      rcases ha : s.player.isAlive with _ | _
      · exact absurd (h.2 ha) hOver
      · rfl
    rw [processCommand_eq s cmd rng hOver']
    dsimp only
    exact gameInv_checkGame _ (invCore_dispatch s cmd _ _ rng h.1 halive)

theorem reachable_gameInv (s : GameState) (h : Reachable s) : GameInv s := by
  induction h with
  | init => exact gameInv_init
  | step s cmd rng _ ih => exact gameInv_step s cmd rng ih

/-! ## C3: the player's health invariant -/

theorem dispatch_use (s : GameState) (cmd T : String) (rng : RandVal × RandVal)
    (hT : ¬ T = "") : dispatch s cmd "use" T rng = doUse s T := by
  unfold dispatch
  rw [if_neg (by decide), if_neg (by decide), if_neg (by decide), if_pos rfl, if_neg hT]

/-- C3: in every reachable state the player's health is in `[0, maxHealth]`
and the alive flag holds exactly when health is positive; moreover a `use`
command resolving the usable medkit at health 90 of 100 yields exactly 100. -/
theorem player_health_invariant :
    (∀ s : GameState, Reachable s →
      0 ≤ s.player.health ∧ s.player.health ≤ s.player.maxHealth ∧
      (s.player.isAlive = true ↔ 0 < s.player.health) ∧
      (s.player.health = 0 ↔ s.player.isAlive = false)) ∧
    (∀ (s : GameState) (cmd : String) (rng : RandVal × RandVal) (it : Item),
      s.isGameOver = false → s.player.isAlive = true →
      s.player.health = 90 → s.player.maxHealth = 100 →
      (parseCommand cmd).1 = "use" → ¬ (parseCommand cmd).2 = "" →
      inventoryFind s.player (parseCommand cmd).2 = some it →
      it.id = "medkit" → it.isUsable = true →
      (processCommand s cmd rng).2.player.health = 100) := by
  constructor
  · intro s hr
    obtain ⟨⟨h0, h1, hiff, _⟩, _⟩ := reachable_gameInv s hr
    refine ⟨h0, h1, hiff, ?_, ?_⟩
    · intro he
      rcases ha : s.player.isAlive with _ | _
      · rfl
      · have := hiff.mp ha
        omega
    · intro ha
      have hnl : ¬ 0 < s.player.health := by
        intro hlt
        rw [hiff.mpr hlt] at ha
        exact absurd ha (by decide)
      omega
  · intro s cmd rng it hOver halive h90 h100 hA hT hfind hid husable
    rw [processCommand_eq s cmd rng hOver, hA, dispatch_use s cmd _ rng hT]
    dsimp only
    rw [checkGameConditions_player]
    have hdu : (doUse s (parseCommand cmd).2).2 =
        { s with player := { s.player with
            health := min (s.player.health + 50) s.player.maxHealth } } := by
      unfold doUse
      rw [hfind]
      dsimp only
      rw [if_neg (by simp [husable])]
      unfold itemUse
      rw [if_pos hid]
    rw [hdu]
    dsimp only
    rw [h90, h100]
    omega

/-- Witness for C3: the fresh session, and a medkit use at 90/100 health. -/
theorem player_health_invariant_witness :
    (0 ≤ initialState.player.health ∧
     initialState.player.health ≤ initialState.player.maxHealth ∧
     (initialState.player.isAlive = true ↔ 0 < initialState.player.health) ∧
     (initialState.player.health = 0 ↔ initialState.player.isAlive = false)) ∧
    (processCommand ⟨initialRooms, ⟨90, 100, [itemMedkit], .crash_site, true⟩, false, false⟩
        "use medkit" (⟨0, by norm_num⟩, ⟨0, by norm_num⟩)).2.player.health = 100 :=
  ⟨player_health_invariant.1 initialState Reachable.init,
   player_health_invariant.2 ⟨initialRooms, ⟨90, 100, [itemMedkit], .crash_site, true⟩, false, false⟩
     "use medkit" (⟨0, by norm_num⟩, ⟨0, by norm_num⟩) itemMedkit rfl rfl rfl rfl (by decide)
     (by decide) (by decide) rfl rfl⟩

/-! ## C4: the creatures' health invariant -/

/-- C4: `Creature.takeDamage` keeps health in `[0, maxHealth]` with the
alive flag equal to health positivity, and in every reachable state every
creature contained in a room is alive with health in `(0, maxHealth]` — so
a dead creature is never contained in any room. -/
theorem creature_health_invariant :
    (∀ (c : Creature) (amount : Int), 0 ≤ amount → c.isAlive = true → 0 < c.health →
      c.health ≤ c.maxHealth →
      0 ≤ (creatureTakeDamage c amount).2.health ∧
      (creatureTakeDamage c amount).2.health ≤ (creatureTakeDamage c amount).2.maxHealth ∧
      ((creatureTakeDamage c amount).2.isAlive = true ↔ 0 < (creatureTakeDamage c amount).2.health)) ∧
    (∀ s : GameState, Reachable s → ∀ rid : RoomId, ∀ c ∈ (s.rooms rid).creatures,
      c.isAlive = true ∧ 0 < c.health ∧ c.health ≤ c.maxHealth) := by
  constructor
  · intro c amount hamt halive hh hmax
    have hb := ctd_health_bounds c amount hamt hh hmax
    refine ⟨hb.1, by rw [ctd_maxHealth]; exact hb.2, ?_⟩
    by_cases hdied : (creatureTakeDamage c amount).1 = true
    · obtain ⟨hh0, hal⟩ := ctd_died c amount hdied
      rw [hh0, hal]
      simp
    · obtain ⟨hh0, hal⟩ := ctd_surv c amount hdied
      rw [hal, halive]
      simp [hh0]
  · intro s hr rid c hc
    obtain ⟨⟨_, _, _, hrooms⟩, _⟩ := reachable_gameInv s hr
    obtain ⟨ha, hh, hm, _⟩ := (hrooms rid).1 c hc
    exact ⟨ha, hh, hm⟩

/-- Witness for C4: damaging the xenomorph, and the xenomorph placed in the
alien forest of the fresh session. -/
theorem creature_health_invariant_witness :
    (0 ≤ (creatureTakeDamage creatureXenomorph 12).2.health ∧
     (creatureTakeDamage creatureXenomorph 12).2.health ≤ (creatureTakeDamage creatureXenomorph 12).2.maxHealth ∧
     ((creatureTakeDamage creatureXenomorph 12).2.isAlive = true ↔
       0 < (creatureTakeDamage creatureXenomorph 12).2.health)) ∧
    (creatureXenomorph.isAlive = true ∧ 0 < creatureXenomorph.health ∧
     creatureXenomorph.health ≤ creatureXenomorph.maxHealth) :=
  ⟨creature_health_invariant.1 creatureXenomorph 12 (by decide) rfl (by decide) (by decide),
   creature_health_invariant.2 initialState Reachable.init RoomId.alien_forest creatureXenomorph
     (by decide)⟩

/-! ## C10: no already-dead reply in reachable states -/

theorem ne_append_of_rev_idx (a p2 s2 : String) (k : Nat) (c1 c2 : Char)
    (h1 : a.data.reverse[k]? = some c1)
    (h2 : s2.data.reverse[k]? = some c2) (hk2 : k < s2.data.length)
    (hne : ¬ c1 = c2) : ¬ a = p2 ++ s2 := by
  intro h
  have hd : a.data.reverse = s2.data.reverse ++ p2.data.reverse := by
    rw [h, String.data_append, List.reverse_append]
  rw [hd, List.getElem?_append_left (by rw [List.length_reverse]; exact hk2), h2] at h1
  exact hne (Option.some.inj h1).symm

theorem append_ne_append_of_rev_idx (p1 s1 p2 s2 : String) (k : Nat) (c1 c2 : Char)
    (h1 : s1.data.reverse[k]? = some c1) (hk1 : k < s1.data.length)
    (h2 : s2.data.reverse[k]? = some c2) (hk2 : k < s2.data.length)
    (hne : ¬ c1 = c2) : ¬ p1 ++ s1 = p2 ++ s2 := by
  apply ne_append_of_rev_idx (p1 ++ s1) p2 s2 k c1 c2 ?_ h2 hk2 hne
  rw [String.data_append, List.reverse_append,
    List.getElem?_append_left (by rw [List.length_reverse]; exact hk1)]
  exact h1

theorem append3_ne_append_of_rev_idx (p1 m1 s1 p2 s2 : String) (k : Nat) (c1 c2 : Char)
    (h1 : s1.data.reverse[k]? = some c1) (hk1 : k < s1.data.length)
    (h2 : s2.data.reverse[k]? = some c2) (hk2 : k < s2.data.length)
    (hne : ¬ c1 = c2) : ¬ p1 ++ (m1 ++ s1) = p2 ++ s2 := by
  intro h
  apply append_ne_append_of_rev_idx (p1 ++ m1) s1 p2 s2 k c1 c2 h1 hk1 h2 hk2 hne
  rw [String.append_assoc]
  exact h

theorem dispatch_attack (s : GameState) (cmd A T : String) (rng : RandVal × RandVal)
    (hA : A = "attack" ∨ A = "fight" ∨ A = "hit") :
    dispatch s cmd A T rng =
      if T = "" then ("Attack what? Specify a creature name.", s)
      else doAttack s T rng.1 rng.2 := by
  rcases hA with h | h | h <;> subst h <;> unfold dispatch <;>
    rw [if_neg (by decide), if_neg (by decide), if_neg (by decide), if_neg (by decide),
      if_pos (by decide)]

/-- C10: in every reachable state every creature contained in a room is
alive, and consequently an attack command never returns the already-dead
reply for its target name (a killed creature resolves as not-here instead). -/
theorem no_already_dead_reply :
    (∀ s : GameState, Reachable s → ∀ rid : RoomId, ∀ c ∈ (s.rooms rid).creatures,
      c.isAlive = true) ∧
    (∀ (s : GameState) (cmd : String) (rng : RandVal × RandVal), Reachable s →
      ((parseCommand cmd).1 = "attack" ∨ (parseCommand cmd).1 = "fight" ∨
        (parseCommand cmd).1 = "hit") →
      ¬ (processCommand s cmd rng).1 =
        "The " ++ (parseCommand cmd).2 ++ " is already dead.") := by
  constructor
  · intro s hr rid c hc
    exact (((reachable_gameInv s hr).1.2.2.2 rid).1 c hc).1
  · intro s cmd rng hr hact
    obtain ⟨⟨_, _, _, hrooms⟩, _⟩ := reachable_gameInv s hr
    by_cases hOver : s.isGameOver = true
    · unfold processCommand
      rw [if_pos hOver]
      dsimp only
      exact ne_append_of_rev_idx _ _ _ 1 'n' 'd' (by decide) (by decide) (by decide) (by decide)
    · have hOver' : s.isGameOver = false := by
        revert hOver
        cases s.isGameOver <;> simp
      rw [processCommand_eq s cmd rng hOver']
      dsimp only
      rw [dispatch_attack s cmd _ _ rng hact]
      by_cases hTe : (parseCommand cmd).2 = ""
      · rw [if_pos hTe]
        dsimp only
        exact ne_append_of_rev_idx _ _ _ 1 'e' 'd' (by decide) (by decide) (by decide) (by decide)
      · rw [if_neg hTe]
        unfold doAttack
        dsimp only
        rcases hfind : (s.rooms s.player.currentLocation).creatures.find?
            (creatureNameMatches (parseCommand cmd).2) with _ | c <;> simp only [hfind]
        · exact append_ne_append_of_rev_idx _ _ _ _ 1 'e' 'd'
            (by decide) (by decide) (by decide) (by decide) (by decide)
        · have hcmem := List.mem_of_find?_eq_some hfind
          obtain ⟨hcAlive, hcHealth, hcMax, hcDmg⟩ := (hrooms s.player.currentLocation).1 c hcmem
          rw [if_neg (by simp [hcAlive])]
          by_cases hHost : c.isHostile = false
          · rw [if_pos hHost]
            dsimp only
            exact append_ne_append_of_rev_idx _ _ _ _ 1 't' 'd'
              (by decide) (by decide) (by decide) (by decide) (by decide)
          · rw [if_neg hHost]
            by_cases hdied : (creatureTakeDamage c (playerAttackDamage rng.1)).1 = true
            · rw [if_pos hdied]
              dsimp only
              exact append_ne_append_of_rev_idx _ _ _ _ 0 '!' '.'
                (by decide) (by decide) (by decide) (by decide) (by decide)
            · rw [if_neg hdied]
              obtain ⟨hsh, hsa⟩ := ctd_surv c (playerAttackDamage rng.1) hdied
              have hc'alive : (creatureTakeDamage c (playerAttackDamage rng.1)).2.isAlive = true := by
                rw [hsa, hcAlive]
              have hc'host := ctd_isHostile c (playerAttackDamage rng.1)
              have hca1 : (creatureAttack (creatureTakeDamage c (playerAttackDamage rng.1)).2 rng.2 s.player).1 =
                  some ((creatureTakeDamage c (playerAttackDamage rng.1)).2.name ++
                    " attacks you for " ++
                    toString (Int.floor (rng.2.val *
                      ((creatureTakeDamage c (playerAttackDamage rng.1)).2.damage : ℚ)) + 1) ++
                    " damage!") := by
                unfold creatureAttack
                rw [if_neg (by rw [hc'alive, hc'host]; revert hHost; cases c.isHostile <;> simp)]
              rw [hca1]
              dsimp only
              exact append3_ne_append_of_rev_idx _ _ _ _ _ 0 '!' '.'
                (by decide) (by decide) (by decide) (by decide) (by decide)

/-- Witness for C10: the xenomorph of the fresh session is alive and
attacking it does not produce the already-dead reply. -/
theorem no_already_dead_reply_witness :
    creatureXenomorph.isAlive = true ∧
    ¬ (processCommand initialState "attack xenomorph" (⟨0, by norm_num⟩, ⟨0, by norm_num⟩)).1 =
      "The " ++ (parseCommand "attack xenomorph").2 ++ " is already dead." :=
  ⟨no_already_dead_reply.1 initialState Reachable.init RoomId.alien_forest creatureXenomorph
     (by decide),
   no_already_dead_reply.2 initialState "attack xenomorph" (⟨0, by norm_num⟩, ⟨0, by norm_num⟩)
     Reachable.init (by decide)⟩
